import Mathlib

/-!
Shallow embedding of the vello window client (src/src/lib.rs) and proofs about it.

Modelling conventions:
- `u32` values are `Nat`; the one subtraction the code performs (`config.width - 20`,
  `config.height - 20`, lines 50-51) is modelled by `u32sub`, which returns `none` on
  underflow (Rust's checked arithmetic treats underflow as a panic).
- All `f64` arithmetic in the code (`Rect::new(MARGIN, MARGIN, width as f64 - MARGIN * 2.0,
  height as f64 - MARGIN * 2.0)`) acts on integers whose magnitude is far below 2^53, so it
  is exact; it is modelled over `Int`.
- A call that can panic (`expect`, `unwrap`, out-of-bounds indexing, arithmetic underflow)
  is modelled as an `Option` whose `none` is the panic.
- Behaviour of the GPU backend that the repository only calls (texture acquisition,
  renderer construction, GPU submission succeeding) is an oracle `Gpu` of booleans.
- Library operations whose code is not in this repository (vello's
  `RenderContext::resize_surface` and `render_to_surface` contract, winit's event-loop
  driver) are modelled from the spec and marked `Modelled from the spec:` below.
-/

namespace VelloGpuIssue

/-- MARGIN constant from line 21 (`const MARGIN: f64 = 50.0;`), exact as an integer. -/
def MARGIN : Int := 50

/-- Checked u32 subtraction: `a - b` panics (returns `none`) when `b > a`. -/
def u32sub (a b : Nat) : Option Nat :=
  if b ≤ a then some (a - b) else none

/-- Surface configuration: the width/height the surface swap-chain is configured with. -/
structure SurfaceConfig where
  width : Nat
  height : Nat
deriving Repr, DecidableEq

/-- The surface record: its configuration and the backing device index (`dev_id`). -/
structure RenderSurface where
  config : SurfaceConfig
  dev_id : Nat
deriving Repr, DecidableEq

/-- The render context: we track the number of devices (`context.devices.len()`). -/
structure RenderContext where
  deviceCount : Nat
deriving Repr, DecidableEq

/-- A kurbo rectangle as built by `Rect::new(x0, y0, x1, y1)`. -/
structure Rect where
  x0 : Int
  y0 : Int
  x1 : Int
  y1 : Int
deriving Repr, DecidableEq

/-- One `scene.stroke` call: the stroke width and the rectangle (line 57-63). -/
structure StrokeCmd where
  strokeWidth : Int
  rect : Rect
deriving Repr, DecidableEq

/-- The scene is the list of drawing commands issued since the last reset. -/
abbrev Scene := List StrokeCmd

/-- Model of `self.scene.reset()` (line 55): clears the scene. -/
def sceneReset (_s : Scene) : Scene := []

/-- Model of `self.scene.stroke(...)` (lines 57-63): appends one stroke command. -/
def sceneStroke (s : Scene) (c : StrokeCmd) : Scene := s ++ [c]

/-- The width/height fields of `vello::RenderParams` (lines 84-89). -/
structure RenderParams where
  width : Nat
  height : Nat
deriving Repr, DecidableEq

/-- Render failure modes named by the spec. -/
inductive RenderError where
  | dimensionMismatch
deriving Repr, DecidableEq

/-- Modelled from the spec: vello's `render_to_surface` is library code not in this
repository.  Per the spec, `width`/`height` must match the texture's actual dimensions
or the call fails with `DimensionMismatchError`. -/
def render_to_surface (p : RenderParams) (texWidth texHeight : Nat) :
    Except RenderError Unit :=
  if p.width = texWidth ∧ p.height = texHeight then Except.ok ()
  else Except.error RenderError.dimensionMismatch

/-- Lines 50-51: `let width = self.surface.config.width - 20;` and likewise for height,
with checked u32 subtraction. -/
def frameDims (cfg : SurfaceConfig) : Option (Nat × Nat) :=
  match u32sub cfg.width 20, u32sub cfg.height 20 with
  | some w, some h => some (w, h)
  | _, _ => none

/-- Line 56: `Rect::new(MARGIN, MARGIN, width as f64 - MARGIN * 2.0, height as f64 - MARGIN * 2.0)`. -/
def frameRect (w h : Nat) : Rect :=
  { x0 := MARGIN, y0 := MARGIN, x1 := (w : Int) - MARGIN * 2, y1 := (h : Int) - MARGIN * 2 }

/-- Lines 50-63 as one unit: compute the frame dimensions, reset the scene, and stroke
the single rectangle; `none` is the arithmetic panic when a dimension is below 20. -/
def buildFrameScene (cfg : SurfaceConfig) (s : Scene) : Option Scene :=
  match frameDims cfg with
  | none => none
  | some wh => some (sceneStroke (sceneReset s) { strokeWidth := 1, rect := frameRect wh.1 wh.2 })

/-- Oracle for the GPU backend calls the repository makes but does not implement:
whether `Renderer::new`, `get_current_texture` and the render submission succeed. -/
structure Gpu where
  rendererNewOk : Bool
  acquireOk : Bool
  renderOk : Bool
deriving Repr, DecidableEq

/-- The per-frame steps of the RedrawRequested arm, in the order the code performs them. -/
inductive RenderStep where
  | sceneBuild
  | acquireTexture
  | renderToSurface
  | present
  | devicePoll
deriving Repr, DecidableEq

/-- Everything one successful frame produced: the scene content, the render params
passed to `render_to_surface`, the acquired texture's actual dimensions (the surface's
configured size), and the executed step sequence. -/
structure FrameOutput where
  scene : Scene
  params : RenderParams
  textureWidth : Nat
  textureHeight : Nat
  steps : List RenderStep
deriving Repr, DecidableEq

/-- Observable effect of handling one window event. -/
inductive EventEffect where
  | exitSignal
  | resizedRedrawRequested
  | frame (f : FrameOutput)
  | ignored
deriving Repr, DecidableEq

/-- The window events the handler matches on (line 35). -/
inductive WindowEvent where
  | closeRequested
  | resized (width height : Nat)
  | redrawRequested
  | other
deriving Repr, DecidableEq

/-- The application state (struct `VelloClient`, lines 23-29); the window handle is
omitted (it is only used to request redraws) and a renderer slot is `true` for `Some`. -/
structure VelloClient where
  surface : RenderSurface
  context : RenderContext
  renderers : List Bool
  scene : Scene
deriving Repr, DecidableEq

/-- Modelled from the spec: vello's `RenderContext::resize_surface` is library code not
in this repository.  Per the spec it reconfigures the surface's swap-chain to the new
pixel dimensions; if width or height is zero it defers (a transient not-yet-sized state)
rather than failing. -/
def resize_surface (s : RenderSurface) (w h : Nat) : RenderSurface :=
  if w = 0 ∨ h = 0 then s
  else { s with config := { width := w, height := h } }

/-- The event handler `VelloClient::window_event` (lines 34-103).  `none` models a
panic.  The RedrawRequested arm follows the code's statement order: compute the frame
dimensions (lines 50-51), reset and repopulate the scene (lines 55-63), index the device
table (line 66), acquire the surface texture (lines 69-73), look up and unwrap the
renderer slot (lines 76-78), submit the render (lines 79-91), present (line 95), poll
the device (line 98). -/
def window_event (gpu : Gpu) (st : VelloClient) (ev : WindowEvent) :
    Option (VelloClient × EventEffect) :=
  match ev with
  | WindowEvent.closeRequested => some (st, EventEffect.exitSignal)
  | WindowEvent.resized w h =>
      some ({ st with surface := resize_surface st.surface w h },
            EventEffect.resizedRedrawRequested)
  | WindowEvent.redrawRequested =>
      match frameDims st.surface.config with
      | none => none
      | some wh =>
        let scene1 := sceneStroke (sceneReset st.scene)
          { strokeWidth := 1, rect := frameRect wh.1 wh.2 }
        if st.surface.dev_id < st.context.deviceCount then
          if gpu.acquireOk then
            match st.renderers.get? st.surface.dev_id with
            | none => none
            | some false => none
            | some true =>
              if gpu.renderOk then
                some ({ st with scene := scene1 },
                  EventEffect.frame
                    { scene := scene1
                      params := { width := wh.1, height := wh.2 }
                      textureWidth := st.surface.config.width
                      textureHeight := st.surface.config.height
                      steps := [RenderStep.sceneBuild] ++ [RenderStep.acquireTexture]
                        ++ [RenderStep.renderToSurface] ++ [RenderStep.present]
                        ++ [RenderStep.devicePoll] })
              else none
          else none
        else none
  | WindowEvent.other => some (st, EventEffect.ignored)

/-- Modelled from the spec: winit's event-loop driver (`event_loop.run_app`) is library
code not in this repository.  Per the spec the loop processes exactly one event at a
time and, once termination is signalled (by the CloseRequested arm calling
`event_loop.exit()`), transitions to Closing and processes no further events. -/
def runLoop (gpu : Gpu) : VelloClient → List WindowEvent → Option (VelloClient × List EventEffect)
  | st, [] => some (st, [])
  | st, ev :: rest =>
      match window_event gpu st ev with
      | none => none
      | some (st1, EventEffect.exitSignal) => some (st1, [EventEffect.exitSignal])
      | some (st1, eff) =>
          match runLoop gpu st1 rest with
          | none => none
          | some (st2, effs) => some (st2, eff :: effs)

/-- The `run` function (lines 130-170): builds the renderer slot table as a vector of
`None` sized to the device count, constructs one renderer for the surface's device and
stores it at index `dev_id`, then assembles the `VelloClient` state.  `none` models the
panics: out-of-bounds device indexing and `Renderer::new` failure (`expect`). -/
def run (gpu : Gpu) (render_cx : RenderContext) (surface : RenderSurface) :
    Option VelloClient :=
  if surface.dev_id < render_cx.deviceCount then
    if gpu.rendererNewOk then
      some { surface := surface
             context := render_cx
             renderers := (List.replicate render_cx.deviceCount false).set surface.dev_id true
             scene := [] }
    else none
  else none

/-- Which parts of the browser environment are present, for `web_sys` lookups. -/
structure WebEnv where
  hasWindow : Bool
  hasDocument : Bool
  hasBody : Bool
deriving Repr, DecidableEq

/-- `display_error_message` (lines 110-128): each `?` lookup short-circuits to `None`
when the window, document or body element is missing; on success the notice is written
into the body and `Some(())` is returned. -/
def display_error_message (env : WebEnv) : Option Unit :=
  match (if env.hasWindow then some () else none : Option Unit) with
  | none => none
  | some _ =>
    match (if env.hasDocument then some () else none : Option Unit) with
    | none => none
    | some _ =>
      match (if env.hasBody then some () else none : Option Unit) with
      | none => none
      | some _ => some ()

/-- Error produced by `create_surface` when the GPU capability is unavailable. -/
inductive SurfaceError where
  | webGpuUnavailable
deriving Repr, DecidableEq

/-- Summary of what the spawned startup task did. -/
structure StartupResult where
  noticeShown : Bool
  loopEntered : Bool
  renderersConstructed : Bool
  frames : List FrameOutput
deriving Repr, DecidableEq

/-- The frame outputs among a list of event effects. -/
def frameEffects : List EventEffect → List FrameOutput
  | [] => []
  | EventEffect.frame f :: rest => f :: frameEffects rest
  | _ :: rest => frameEffects rest

/-- The spawned startup task (lines 207-239): if `create_surface` succeeded, enter
`run` and the event loop; otherwise call `display_error_message` once and discard its
result (`_ = display_error_message();`). -/
def spawned_task (gpu : Gpu) (env : WebEnv) (render_cx : RenderContext)
    (surfaceResult : Except SurfaceError RenderSurface) (events : List WindowEvent) :
    Option StartupResult :=
  match surfaceResult with
  | Except.ok surface =>
      match run gpu render_cx surface with
      | none => none
      | some st0 =>
          match runLoop gpu st0 events with
          | none => none
          | some (_, effs) =>
              some { noticeShown := false
                     loopEntered := true
                     renderersConstructed := true
                     frames := frameEffects effs }
  | Except.error _ =>
      some { noticeShown := (display_error_message env).isSome
             loopEntered := false
             renderersConstructed := false
             frames := [] }

/-- States reachable by the program: an initial state built by `run`, followed by any
sequence of successfully handled window events (under any GPU behaviour). -/
inductive Reachable : VelloClient → Prop
  | init (gpu : Gpu) (render_cx : RenderContext) (surface : RenderSurface)
      (st : VelloClient) : run gpu render_cx surface = some st → Reachable st
  | step (gpu : Gpu) (st st1 : VelloClient) (ev : WindowEvent) (eff : EventEffect) :
      Reachable st → window_event gpu st ev = some (st1, eff) → Reachable st1

/-- The renderer slot table invariant: one slot per device, `Some` at the surface's
device index, `None` everywhere else. -/
def rendererInvariant (st : VelloClient) : Prop :=
  st.renderers.length = st.context.deviceCount ∧
  st.renderers.get? st.surface.dev_id = some true ∧
  ∀ j, j < st.renderers.length → j ≠ st.surface.dev_id → st.renderers.get? j = some false

/-- The GPU oracle in which every backend call succeeds. -/
def gpuOk : Gpu := { rendererNewOk := true, acquireOk := true, renderOk := true }

/-- Concrete state with an 800 by 600 surface on device 0 of a one-device context,
as produced by `run` (scenario A's initial state). -/
def stA : VelloClient :=
  { surface := { config := { width := 800, height := 600 }, dev_id := 0 }
    context := { deviceCount := 1 }
    renderers := [true]
    scene := [] }

/-- Concrete state whose surface width 10 is below the 20 the code subtracts. -/
def stSmall : VelloClient :=
  { surface := { config := { width := 10, height := 600 }, dev_id := 0 }
    context := { deviceCount := 1 }
    renderers := [true]
    scene := [] }

/-- The frame produced by handling RedrawRequested, when one is produced. -/
def redrawFrame (gpu : Gpu) (st : VelloClient) : Option FrameOutput :=
  match window_event gpu st WindowEvent.redrawRequested with
  | some (_, EventEffect.frame f) => some f
  | _ => none

/-- A browser environment in which window, document and body are all present. -/
def envFull : WebEnv := { hasWindow := true, hasDocument := true, hasBody := true }

/-- A browser environment with no window object. -/
def envNoWindow : WebEnv := { hasWindow := false, hasDocument := true, hasBody := true }

/-! ## Helper lemmas (shared) -/

/-- resize_surface never changes the backing device index. -/
theorem resize_surface_dev_id (s : RenderSurface) (w h : Nat) :
    (resize_surface s w h).dev_id = s.dev_id := by
  unfold resize_surface
  split <;> rfl

/-- In the renderer table built by `run`, the surface's device slot holds a renderer. -/
theorem renderers_get_self (n i : Nat) (h : i < n) :
    ((List.replicate n false).set i true).get? i = some true := by
  rw [List.get?_set_eq_of_lt]
  simpa using h

/-- In the renderer table built by `run`, every other slot is empty. -/
theorem renderers_get_other (n i j : Nat) (hj : j < n) (hne : j ≠ i) :
    ((List.replicate n false).set i true).get? j = some false := by
  rw [List.get?_set_ne _ _ (fun h => hne h.symm)]
  simp [List.get?_eq_getElem?, hj]

/-- When both configured dimensions are at least 20, the frame dimensions are the
configured dimensions minus 20 (the checked subtractions succeed). -/
theorem frameDims_of_le (cfg : SurfaceConfig) (hw : 20 ≤ cfg.width) (hh : 20 ≤ cfg.height) :
    frameDims cfg = some (cfg.width - 20, cfg.height - 20) := by
  simp only [frameDims, u32sub, if_pos hw, if_pos hh]

/-- Successful event handling never changes the renderer table, the surface's device
index, or the context. -/
theorem window_event_preserves (gpu : Gpu) (st st1 : VelloClient) (ev : WindowEvent)
    (eff : EventEffect) (h : window_event gpu st ev = some (st1, eff)) :
    st1.renderers = st.renderers ∧ st1.surface.dev_id = st.surface.dev_id ∧
      st1.context = st.context := by
  cases ev with
  | closeRequested =>
      simp only [window_event, Option.some.injEq, Prod.mk.injEq] at h
      obtain ⟨rfl, -⟩ := h
      exact ⟨rfl, rfl, rfl⟩
  | resized w hh =>
      simp only [window_event, Option.some.injEq, Prod.mk.injEq] at h
      obtain ⟨rfl, -⟩ := h
      exact ⟨rfl, resize_surface_dev_id _ _ _, rfl⟩
  | redrawRequested =>
      simp only [window_event] at h
      split at h
      · exact absurd h (by simp)
      · split at h
        · split at h
          · split at h
            · exact absurd h (by simp)
            · exact absurd h (by simp)
            · split at h
              · simp only [Option.some.injEq, Prod.mk.injEq] at h
                obtain ⟨rfl, -⟩ := h
                exact ⟨rfl, rfl, rfl⟩
              · exact absurd h (by simp)
          · exact absurd h (by simp)
        · exact absurd h (by simp)
  | other =>
      simp only [window_event, Option.some.injEq, Prod.mk.injEq] at h
      obtain ⟨rfl, -⟩ := h
      exact ⟨rfl, rfl, rfl⟩

/-! ## Claim theorems -/

/-- Claim C1 as stated is false on the code: at surface configuration 800 by 600 the
render params passed to render_to_surface are 780 by 580 (the configured size minus 20,
lines 50-51) while the acquired surface texture is 800 by 600, so the dimensions differ
and the DimensionMismatchError branch of the render contract is taken. -/
theorem renderParams_match_cex :
    (redrawFrame gpuOk stA).map
        (fun f => (f.params.width, f.params.height, f.textureWidth, f.textureHeight))
      = some (780, 580, 800, 600) ∧
    ((780 : Nat) ≠ 800 ∧ (580 : Nat) ≠ 600) ∧
    render_to_surface { width := 780, height := 580 } 800 600
      = Except.error RenderError.dimensionMismatch := by
  refine ⟨by decide, by decide, rfl⟩

/-- Claim C1 amended: on every RedrawRequested event that produces a frame, the width
and height passed in the render params are the surface's configured dimensions minus
20, which never equal the actual pixel dimensions of the acquired surface texture; the
DimensionMismatchError branch of the render contract is therefore reached on every
frame rather than unreachable. -/
theorem renderParams_offBy20 (gpu : Gpu) (st : VelloClient)
    (hacq : gpu.acquireOk = true) (hrend : gpu.renderOk = true)
    (hdev : st.surface.dev_id < st.context.deviceCount)
    (hren : st.renderers.get? st.surface.dev_id = some true)
    (hw : 20 ≤ st.surface.config.width) (hh : 20 ≤ st.surface.config.height) :
    ∃ f, redrawFrame gpu st = some f ∧
      f.params.width = st.surface.config.width - 20 ∧
      f.params.height = st.surface.config.height - 20 ∧
      f.textureWidth = st.surface.config.width ∧
      f.textureHeight = st.surface.config.height ∧
      f.params.width ≠ f.textureWidth ∧
      render_to_surface f.params f.textureWidth f.textureHeight
        = Except.error RenderError.dimensionMismatch := by
  unfold redrawFrame window_event
  rw [frameDims_of_le st.surface.config hw hh]
  simp only [hacq, hrend, hren, if_pos hdev, if_true]
  refine ⟨_, rfl, rfl, rfl, rfl, rfl, ?_, ?_⟩
  · dsimp only
    omega
  · unfold render_to_surface
    rw [if_neg]
    dsimp only
    omega

/-- Claim C1 witness: the amended statement instantiated at the 800 by 600 state. -/
theorem renderParams_offBy20_witness :
    ∃ f, redrawFrame gpuOk stA = some f ∧
      f.params.width = stA.surface.config.width - 20 ∧
      f.params.height = stA.surface.config.height - 20 ∧
      f.textureWidth = stA.surface.config.width ∧
      f.textureHeight = stA.surface.config.height ∧
      f.params.width ≠ f.textureWidth ∧
      render_to_surface f.params f.textureWidth f.textureHeight
        = Except.error RenderError.dimensionMismatch :=
  renderParams_offBy20 gpuOk stA rfl rfl (by decide) rfl (by decide) (by decide)

/-- Claim C2 as stated is false on the code: with the surface at 800 by 600 the frame's
scene holds one rectangle with corners (50, 50) and (680, 480), not (700, 500) =
(800 - 2*50, 600 - 2*50), because the code first subtracts 20 from each dimension. -/
theorem sceneRect_cex :
    (redrawFrame gpuOk stA).map FrameOutput.scene
      = some [{ strokeWidth := 1, rect := { x0 := 50, y0 := 50, x1 := 680, y1 := 480 } }] ∧
    ((680 : Int) ≠ 800 - 2 * 50 ∧ (480 : Int) ≠ 600 - 2 * 50) := by
  refine ⟨by decide, by decide⟩

/-- Claim C2 amended: for every redraw performed while the surface configuration is
(w, h) (with both dimensions at least 20 so the subtraction does not panic), the scene
contains exactly one stroked rectangle with corners (50, 50) and
(w - 20 - 2*50, h - 20 - 2*50); at 800 by 600 the corners are (50, 50) and (680, 480),
and after Resized(400, 300) the next frame's corners are (50, 50) and (280, 180). -/
theorem sceneRect_amended (gpu : Gpu) (st : VelloClient)
    (hacq : gpu.acquireOk = true) (hrend : gpu.renderOk = true)
    (hdev : st.surface.dev_id < st.context.deviceCount)
    (hren : st.renderers.get? st.surface.dev_id = some true)
    (hw : 20 ≤ st.surface.config.width) (hh : 20 ≤ st.surface.config.height) :
    ∃ f, redrawFrame gpu st = some f ∧
      f.scene = [{ strokeWidth := 1
                   rect := { x0 := 50, y0 := 50
                             x1 := (st.surface.config.width : Int) - 20 - 2 * 50
                             y1 := (st.surface.config.height : Int) - 20 - 2 * 50 } }] := by
  unfold redrawFrame window_event
  rw [frameDims_of_le st.surface.config hw hh]
  simp only [hacq, hrend, hren, if_pos hdev, if_true]
  refine ⟨_, rfl, ?_⟩
  dsimp only
  simp only [sceneStroke, sceneReset, frameRect, MARGIN, List.nil_append, List.cons.injEq,
    StrokeCmd.mk.injEq, Rect.mk.injEq, and_true, true_and]
  constructor <;> omega

/-- Claim C2 witness: the amended statement instantiated at the 800 by 600 state. -/
theorem sceneRect_amended_witness :
    ∃ f, redrawFrame gpuOk stA = some f ∧
      f.scene = [{ strokeWidth := 1
                   rect := { x0 := 50, y0 := 50
                             x1 := (stA.surface.config.width : Int) - 20 - 2 * 50
                             y1 := (stA.surface.config.height : Int) - 20 - 2 * 50 } }] :=
  sceneRect_amended gpuOk stA rfl rfl (by decide) rfl (by decide) (by decide)

/-- Claim C3: after a Resized(width, height) event with positive dimensions is handled,
the surface's configuration is exactly (width, height), the only change to the state. -/
theorem resized_sets_config (gpu : Gpu) (st : VelloClient) (w h : Nat)
    (hw : 0 < w) (hh : 0 < h) :
    window_event gpu st (WindowEvent.resized w h)
      = some ({ st with surface := { config := { width := w, height := h }
                                     dev_id := st.surface.dev_id } },
              EventEffect.resizedRedrawRequested) := by
  simp only [window_event, resize_surface]
  rw [if_neg (by omega : ¬(w = 0 ∨ h = 0))]

/-- Claim C3 witness: Resized(400, 300) from the 800 by 600 state. -/
theorem resized_sets_config_witness :
    window_event gpuOk stA (WindowEvent.resized 400 300)
      = some ({ stA with surface := { config := { width := 400, height := 300 }
                                      dev_id := stA.surface.dev_id } },
              EventEffect.resizedRedrawRequested) :=
  resized_sets_config gpuOk stA 400 300 (by decide) (by decide)

/-- Claim C4: a Resized event carrying a zero width or height is handled without
failure and leaves the state unchanged: the surface is not reconfigured to a zero
dimension, the resize is deferred. -/
theorem resized_zero_defers (gpu : Gpu) (st : VelloClient) (w h : Nat)
    (hz : w = 0 ∨ h = 0) :
    window_event gpu st (WindowEvent.resized w h)
      = some (st, EventEffect.resizedRedrawRequested) := by
  simp only [window_event, resize_surface]
  rw [if_pos hz]

/-- Claim C4 witness: Resized(0, 300) from the 800 by 600 state. -/
theorem resized_zero_defers_witness :
    window_event gpuOk stA (WindowEvent.resized 0 300)
      = some (stA, EventEffect.resizedRedrawRequested) :=
  resized_zero_defers gpuOk stA 0 300 (Or.inl rfl)

/-- Claim C5 as stated is false on the code: at surface width 10 (which is at most
2*margin = 100) the u32 subtraction `config.width - 20` underflows, so scene building
panics under Rust's checked arithmetic and handling RedrawRequested aborts. -/
theorem smallWidth_redraw_panics_cex :
    stSmall.surface.config.width ≤ 2 * 50 ∧
    buildFrameScene stSmall.surface.config stSmall.scene = none ∧
    window_event gpuOk stSmall WindowEvent.redrawRequested = none := by
  decide

/-- Claim C5 amended: for every surface configuration with both dimensions at least 20,
scene building does not panic: it emits exactly one stroked rectangle whose coordinates
are well-defined, and whenever a dimension is at most 2*margin = 100 the rectangle has
zero or negative extent in that direction; for dimensions below 20 the u32 subtraction
of 20 underflows and panics. -/
theorem scene_build_small_dims (cfg : SurfaceConfig) (s : Scene)
    (hw : 20 ≤ cfg.width) (hh : 20 ≤ cfg.height) :
    ∃ r : Rect, buildFrameScene cfg s = some [{ strokeWidth := 1, rect := r }] ∧
      (cfg.width ≤ 2 * 50 → r.x1 ≤ r.x0) ∧ (cfg.height ≤ 2 * 50 → r.y1 ≤ r.y0) := by
  unfold buildFrameScene
  rw [frameDims_of_le cfg hw hh]
  refine ⟨frameRect (cfg.width - 20) (cfg.height - 20), rfl, ?_, ?_⟩ <;>
    · intro hsmall
      simp only [frameRect, MARGIN]
      omega

/-- Claim C5 witness: the amended statement at the 60 by 600 configuration, where the
emitted rectangle has negative horizontal extent. -/
theorem scene_build_small_dims_witness :
    ∃ r : Rect,
      buildFrameScene { width := 60, height := 600 } [] = some [{ strokeWidth := 1, rect := r }] ∧
      ((60 : Nat) ≤ 2 * 50 → r.x1 ≤ r.x0) ∧ ((600 : Nat) ≤ 2 * 50 → r.y1 ≤ r.y0) :=
  scene_build_small_dims { width := 60, height := 600 } [] (by decide) (by decide)

/-- Claim C6: on the success path a frame executes reset-and-repopulate the scene, then
texture acquisition, then render_to_surface, then present, then device poll, in exactly
that order with no step skipped, and the state's scene is the repopulated one. -/
theorem redraw_step_order (gpu : Gpu) (st : VelloClient)
    (hacq : gpu.acquireOk = true) (hrend : gpu.renderOk = true)
    (hdev : st.surface.dev_id < st.context.deviceCount)
    (hren : st.renderers.get? st.surface.dev_id = some true)
    (hw : 20 ≤ st.surface.config.width) (hh : 20 ≤ st.surface.config.height) :
    ∃ st1 f, window_event gpu st WindowEvent.redrawRequested = some (st1, EventEffect.frame f) ∧
      f.steps = [RenderStep.sceneBuild, RenderStep.acquireTexture, RenderStep.renderToSurface,
                 RenderStep.present, RenderStep.devicePoll] ∧
      f.scene = sceneStroke (sceneReset st.scene)
        { strokeWidth := 1
          rect := frameRect (st.surface.config.width - 20) (st.surface.config.height - 20) } ∧
      st1.scene = f.scene := by
  unfold window_event
  rw [frameDims_of_le st.surface.config hw hh]
  simp only [hacq, hrend, hren, if_pos hdev, if_true]
  exact ⟨_, _, rfl, rfl, rfl, rfl⟩

/-- Claim C6 witness: the step order on a concrete successful frame. -/
theorem redraw_step_order_witness :
    ∃ st1 f, window_event gpuOk stA WindowEvent.redrawRequested
        = some (st1, EventEffect.frame f) ∧
      f.steps = [RenderStep.sceneBuild, RenderStep.acquireTexture, RenderStep.renderToSurface,
                 RenderStep.present, RenderStep.devicePoll] ∧
      f.scene = sceneStroke (sceneReset stA.scene)
        { strokeWidth := 1
          rect := frameRect (stA.surface.config.width - 20) (stA.surface.config.height - 20) } ∧
      st1.scene = f.scene :=
  redraw_step_order gpuOk stA rfl rfl (by decide) rfl (by decide) (by decide)

/-- Claim C7: in every reachable state the renderer slot table has one entry per device
in the context, the entry at the surface's device index holds a renderer (initialized
by `run` before the event loop), and every other entry is empty forever. -/
theorem renderer_table_invariant (st : VelloClient) (h : Reachable st) :
    rendererInvariant st := by
  induction h with
  | init gpu render_cx surface st0 hrun =>
      unfold run at hrun
      split at hrun
      · split at hrun
        · obtain rfl := Option.some.inj hrun
          refine ⟨by simp, ?_, ?_⟩
          · exact renderers_get_self _ _ (by assumption)
          · intro j hj hne
            simp only [List.length_set, List.length_replicate] at hj
            exact renderers_get_other _ _ _ hj hne
        · exact absurd hrun (by simp)
      · exact absurd hrun (by simp)
  | step gpu st st1 ev eff hre hwe ih =>
      obtain ⟨h1, h2, h3⟩ := window_event_preserves gpu st st1 ev eff hwe
      unfold rendererInvariant at ih ⊢
      rw [h1, h2, h3]
      exact ih

/-- Claim C7 witness: the invariant at the initial state built by `run` on a one-device
context. -/
theorem renderer_table_invariant_witness : rendererInvariant stA :=
  renderer_table_invariant stA
    (Reachable.init gpuOk { deviceCount := 1 }
      { config := { width := 800, height := 600 }, dev_id := 0 } stA (by decide))

/-- Claim C8: when surface creation fails and the browser environment is present, the
startup task shows the static notice exactly once, never enters the event loop or
`run`, constructs no renderer, and renders no frame. -/
theorem surface_failure_notice (gpu : Gpu) (env : WebEnv) (render_cx : RenderContext)
    (e : SurfaceError) (events : List WindowEvent)
    (hwin : env.hasWindow = true) (hdoc : env.hasDocument = true)
    (hbody : env.hasBody = true) :
    spawned_task gpu env render_cx (Except.error e) events
      = some { noticeShown := true, loopEntered := false
               renderersConstructed := false, frames := [] } := by
  simp [spawned_task, display_error_message, hwin, hdoc, hbody]

/-- Claim C8 witness: a concrete failed surface creation in a full browser environment. -/
theorem surface_failure_notice_witness :
    spawned_task gpuOk envFull { deviceCount := 1 }
        (Except.error SurfaceError.webGpuUnavailable) []
      = some { noticeShown := true, loopEntered := false
               renderersConstructed := false, frames := [] } :=
  surface_failure_notice gpuOk envFull { deviceCount := 1 }
    SurfaceError.webGpuUnavailable [] rfl rfl rfl

/-- Claim C9: handling CloseRequested signals termination, and the loop processes no
event delivered after it: the run is identical to one that ends at the CloseRequested
event, so no frame is rendered after close is requested. -/
theorem close_stops_loop (gpu : Gpu) (st : VelloClient)
    (evs1 evs2 : List WindowEvent) :
    window_event gpu st WindowEvent.closeRequested = some (st, EventEffect.exitSignal) ∧
    runLoop gpu st (evs1 ++ WindowEvent.closeRequested :: evs2)
      = runLoop gpu st (evs1 ++ [WindowEvent.closeRequested]) := by
  refine ⟨rfl, ?_⟩
  induction evs1 generalizing st with
  | nil => rfl
  | cons ev rest ih =>
      simp only [List.cons_append, runLoop]
      cases hwe : window_event gpu st ev with
      | none => rfl
      | some p =>
          obtain ⟨st1, eff⟩ := p
          cases eff <;> simp [ih st1]

/-- Claim C10: when the browser window, document or body is missing, the degraded
notice cannot be shown, display_error_message returns none, and the startup task
silently completes without aborting or reporting the condition. -/
theorem notice_failure_ignored (gpu : Gpu) (env : WebEnv) (render_cx : RenderContext)
    (e : SurfaceError) (events : List WindowEvent)
    (hz : env.hasWindow = false ∨ env.hasDocument = false ∨ env.hasBody = false) :
    display_error_message env = none ∧
    spawned_task gpu env render_cx (Except.error e) events
      = some { noticeShown := false, loopEntered := false
               renderersConstructed := false, frames := [] } := by
  have hd : display_error_message env = none := by
    unfold display_error_message
    rcases hz with h | h | h
    · rw [h]
      rfl
    · rw [h]
      cases env.hasWindow <;> rfl
    · rw [h]
      cases env.hasWindow <;> cases env.hasDocument <;> rfl
  refine ⟨hd, ?_⟩
  simp [spawned_task, hd]

/-- Claim C10 witness: a concrete environment with no window object. -/
theorem notice_failure_ignored_witness :
    display_error_message envNoWindow = none ∧
    spawned_task gpuOk envNoWindow { deviceCount := 1 }
        (Except.error SurfaceError.webGpuUnavailable) []
      = some { noticeShown := false, loopEntered := false
               renderersConstructed := false, frames := [] } :=
  notice_failure_ignored gpuOk envNoWindow { deviceCount := 1 }
    SurfaceError.webGpuUnavailable [] (Or.inl rfl)

end VelloGpuIssue
